import Mathlib

/-
  Verification development for the QuantPM repository.

  The repository's executable code is the React frontend
  `src/JavaScript/quant-frontend/src/App.jsx`; the simulation engine is
  described only in the specification (the spec notes the repository
  "contains essentially none of this logic yet").  The frontend handlers
  (`handleCSVUpload`, `handleSimulation`, the private-investment Add and
  Remove handlers) are embedded below as pure Lean functions over an
  explicit frontend state; JavaScript numbers are modelled as `Option Rat`
  with `none` playing the role of `NaN`, and JavaScript objects as
  association lists from string keys to values.
-/

/-- A cell value produced by PapaParse with `dynamicTyping: true`:
either `null`, a string, or a number. -/
inductive Cell where
  | null : Cell
  | str : String → Cell
  | num : Rat → Cell
deriving DecidableEq, Repr

/-- A parsed CSV row: an object mapping column names to cell values. -/
abbrev Row : Type := List (String × Cell)

/-- A JSON-like value as sent in the axios request body.  `jnum none`
models the JavaScript number `NaN`. -/
inductive JValue where
  | jnull : JValue
  | jnum : Option Rat → JValue
  | jstr : String → JValue
  | jarr : List JValue → JValue
  | jobj : List (String × JValue) → JValue

/-- Model of `String.prototype.split(sep)` for a single-character
separator, on the character list of the string.  `"".split(sep)` is
`[""]`, matching JavaScript. -/
def jsSplit (sep : Char) : List Char → List (List Char)
  | [] => [[]]
  | c :: rest =>
    let r := jsSplit sep rest
    if c = sep then [] :: r
    else
      match r with
      | [] => [[c]]
      | h :: t => (c :: h) :: t

/-- Model of `String.prototype.trim()`: strip leading and trailing
whitespace from a character list. -/
def jsTrim (cs : List Char) : List Char :=
  ((cs.dropWhile Char.isWhitespace).reverse.dropWhile Char.isWhitespace).reverse

/-- Value of a decimal digit character. -/
def digitVal (c : Char) : Nat := c.toNat - 48

/-- Digit-level reading of a decimal literal `[+|-] digits [. digits]`:
the negative-sign flag, integer-part value, fraction-part value, and
fraction length, or `none` when there is no digit at all (the `NaN`
case of `parseFloat`). -/
def parseFloatParts (cs : List Char) : Option (Bool × Nat × Nat × Nat) :=
  let signed : Bool × List Char :=
    match cs with
    | '-' :: rest => (true, rest)
    | '+' :: rest => (false, rest)
    | _ => (false, cs)
  let intPart := signed.2.takeWhile Char.isDigit
  let rest := signed.2.dropWhile Char.isDigit
  let fracPart :=
    match rest with
    | '.' :: r => r.takeWhile Char.isDigit
    | _ => []
  if intPart.isEmpty ∧ fracPart.isEmpty then none
  else
    some (signed.1,
          intPart.foldl (fun a c => 10 * a + digitVal c) 0,
          fracPart.foldl (fun a c => 10 * a + digitVal c) 0,
          fracPart.length)

/-- The rational number denoted by the parts of a decimal literal. -/
def floatPartsToRat (p : Bool × Nat × Nat × Nat) : Rat :=
  (if p.1 then -1 else 1) * ((p.2.1 : Rat) + (p.2.2.1 : Rat) / (10 : Rat) ^ p.2.2.2)

/-- Model of the JavaScript builtin `parseFloat` on decimal literals of
the form `[+|-] digits [. digits]` (the forms a numeric input field and
the weight syntax produce): `none` models the `NaN` result on input with
no leading digits, such as the empty string. -/
def parseFloatChars (cs : List Char) : Option Rat :=
  (parseFloatParts cs).map floatPartsToRat

/-- Model of the JavaScript builtin `parseInt` (radix 10) on inputs of
the form `[+|-] digits ...`: take the longest leading digit run; `none`
models `NaN` when there is none. -/
def parseIntChars (cs : List Char) : Option Int :=
  let signed : Int × List Char :=
    match cs with
    | '-' :: rest => (-1, rest)
    | '+' :: rest => (1, rest)
    | _ => (1, cs)
  let intPart := signed.2.takeWhile Char.isDigit
  if intPart.isEmpty then none
  else some (signed.1 * (intPart.foldl (fun a c => 10 * a + digitVal c) 0 : Nat))

/-- `parseFloat` on a Lean string. -/
def parseFloat (s : String) : Option Rat := parseFloatChars s.data

/-- `parseInt` on a Lean string. -/
def parseInt (s : String) : Option Int := parseIntChars s.data

/-- A private investment entry as built by the Add handler
(App.jsx lines 135-138): `{commitment: parseFloat(...), start_month:
parseInt(...)}`.  Fields are `Option`s because `parseFloat`/`parseInt`
can return `NaN`. -/
structure Investment where
  commitment : Option Rat
  start_month : Option Int
deriving DecidableEq, Repr

/-- The frontend input state feeding `handleSimulation`
(App.jsx lines 16-24). -/
structure FrontendState where
  initialCapital : String
  publicWeightsInput : String
  returnsData : Option (List Row)
  privateInvestments : List Investment

/-- The initial frontend state (App.jsx lines 16-24): capital "100000",
weights "SPY:0.6, TLT:0.4", no CSV, no investments. -/
def defaultState : FrontendState :=
  { initialCapital := "100000"
  , publicWeightsInput := "SPY:0.6, TLT:0.4"
  , returnsData := none
  , privateInvestments := [] }

/-- JavaScript object property assignment `obj[k] = v`: overwrite an
existing key in place, otherwise append. -/
def objInsert (m : List (String × Option Rat)) (k : String) (v : Option Rat) :
    List (String × Option Rat) :=
  if m.any (fun p => p.1 == k) then
    m.map (fun p => if p.1 == k then (k, v) else p)
  else m ++ [(k, v)]

/-- The weight-parsing loop of `handleSimulation` (App.jsx lines 61-66):
split the input on commas; for each pair, trim, split on the first colon
into symbol and weight, and assign `weights[symbol.trim()] =
parseFloat(weight)`.  A pair with no colon gives `parseFloat(undefined)`,
that is `NaN` (`none`). -/
def parseWeights (input : String) : List (String × Option Rat) :=
  (jsSplit ',' input.data).foldl
    (fun m pair =>
      let parts := jsSplit ':' (jsTrim pair)
      let symbol : List Char := parts.headD []
      let weight : Option Rat :=
        match parts with
        | _ :: w :: _ => parseFloatChars w
        | _ => none
      objInsert m (String.mk (jsTrim symbol)) weight)
    []

/-- The Add handler (App.jsx lines 133-143): when the commitment string
is truthy (non-empty) and the start-month string is not `""`, append
`{commitment: parseFloat(privateCommitment), start_month:
parseInt(privateStartMonth)}` to the investments list; otherwise do
nothing. -/
def addInvestment (l : List Investment) (c s : String) : List Investment :=
  if c ≠ "" ∧ s ≠ "" then
    l ++ [{ commitment := parseFloat c, start_month := parseInt s }]
  else l

/-- `Array.prototype.filter` with the element index passed to the
callback, starting from a given index. -/
def filterWithIndex {α : Type} (p : Nat → α → Bool) : Nat → List α → List α
  | _, [] => []
  | n, a :: t =>
    if p n a then a :: filterWithIndex p (n + 1) t
    else filterWithIndex p (n + 1) t

/-- The Remove handler (App.jsx lines 156-159):
`privateInvestments.filter((_, i) => i !== idx)`. -/
def removeInvestment (l : List Investment) (idx : Nat) : List Investment :=
  filterWithIndex (fun i _ => i != idx) 0 l

/-- An operation on the private-investments list: the Add button with
the two input strings, or the Remove button at a list index. -/
inductive InvOp where
  | add : String → String → InvOp
  | remove : Nat → InvOp

/-- Apply one Add or Remove operation to the investments list. -/
def applyOp (l : List Investment) : InvOp → List Investment
  | .add c s => addInvestment l c s
  | .remove i => removeInvestment l i

/-- Apply a sequence of Add/Remove operations starting from the empty
list (the initial `privateInvestments` state). -/
def applyOps (ops : List InvOp) : List Investment :=
  ops.foldl applyOp []

/-- The JSON encoding of one investment entry in the request body. -/
def investmentObj (inv : Investment) : JValue :=
  .jobj [("commitment", .jnum inv.commitment),
         ("start_month", .jnum (inv.start_month.map (fun i => (i : Rat))))]

/-- The JSON encoding of the parsed weights object. -/
def weightsObj (w : List (String × Option Rat)) : JValue :=
  .jobj (w.map (fun p => (p.1, .jnum p.2)))

/-- A JSON array of plain numbers. -/
def ratArr (rs : List Rat) : JValue :=
  .jarr (rs.map (fun r => .jnum (some r)))

/-- The JSON encoding of a parsed CSV cell. -/
def cellToJValue : Cell → JValue
  | .null => .jnull
  | .str s => .jstr s
  | .num r => .jnum (some r)

/-- The JSON encoding of one parsed CSV row object. -/
def rowObj (r : Row) : JValue :=
  .jobj (r.map (fun kv => (kv.1, cellToJValue kv.2)))

/-- The hard-coded fallback for `returns_data` (App.jsx lines 72-75):
`{SPY: Array(120).fill(0.01), TLT: Array(120).fill(0.005)}`. -/
def defaultReturnsValue : JValue :=
  .jobj [("SPY", ratArr (List.replicate 120 (1 / 100))),
         ("TLT", ratArr (List.replicate 120 (1 / 200)))]

/-- The value of the `returns_data` request field
(`returnsData || {...}`, App.jsx lines 72-75): the uploaded rows when
`returnsData` is non-null, otherwise the hard-coded default object. -/
def returnsDataValue : Option (List Row) → JValue
  | some rows => .jarr (rows.map rowObj)
  | none => defaultReturnsValue

/-- The request body posted to `/simulate` by `handleSimulation`
(App.jsx lines 68-76), as an ordered object. -/
def buildRequest (st : FrontendState) : List (String × JValue) :=
  [("initial_capital", .jnum (parseFloat st.initialCapital)),
   ("public_weights", weightsObj (parseWeights st.publicWeightsInput)),
   ("private_commitments", .jarr (st.privateInvestments.map investmentObj)),
   ("returns_data", returnsDataValue st.returnsData)]

/-- The outcome of the awaited `axios.post` call: a response body on
success, or a thrown error (network failure, non-2xx status). -/
inductive BackendOutcome where
  | ok : List (String × JValue) → BackendOutcome
  | failure : BackendOutcome

/-- The result/loading state `handleSimulation` leaves behind. -/
structure UIState where
  result : Option JValue
  loading : Bool

/-- JavaScript object property lookup. -/
def lookupJ (k : String) : List (String × JValue) → Option JValue
  | [] => none
  | (k1, v) :: rest => if k1 == k then some v else lookupJ k rest

/-- The state `handleSimulation` (App.jsx lines 56-85) leaves after the
awaited post resolves: on success `result` is `response.data.result`
(possibly absent) and on a thrown error the catch block leaves `result`
at the `null` set at line 58; `setLoading(false)` runs on both paths. -/
def handleSimulationUpdate : BackendOutcome → UIState
  | .ok data => { result := lookupJ "result" data, loading := false }
  | .failure => { result := none, loading := false }

/-- The render guard `{result && (...)}` (App.jsx line 176): the
portfolio chart and metrics render only when `result` is truthy. -/
def rendersResult (ui : UIState) : Bool := ui.result.isSome

/-- The row filter of `handleCSVUpload` (App.jsx lines 41-43):
`Object.values(row).every((val) => val !== null && val !== "")`. -/
def rowComplete (r : Row) : Bool :=
  (r.map Prod.snd).all (fun v => !(v == Cell.null) && !(v == Cell.str ""))

/-- The row map of `handleCSVUpload` (App.jsx lines 45-48):
`const { Date, ...rest } = row; return rest` drops the `Date` property. -/
def stripDate (r : Row) : Row :=
  r.filter (fun kv => kv.1 != "Date")

/-- The complete-callback of `handleCSVUpload` (App.jsx lines 40-51):
filter out rows with a `null` or `""` value, then drop the `Date`
column from each surviving row. -/
def processCSV (rows : List Row) : List Row :=
  (rows.filter rowComplete).map stripDate

/-- `handleCSVUpload` as a state update: `setReturnsData(formatted)`. -/
def handleCSVUpload (st : FrontendState) (rows : List Row) : FrontendState :=
  { st with returnsData := some (processCSV rows) }

/-- Modelled from the spec: the per-month snapshot `SimulationState`
(spec section 3) of the Unified Portfolio Simulation Engine, which is
absent from the repository's source (the spec notes the repository
contains essentially none of the engine logic): public value, aggregate
private NAV, cash value, and total value. -/
structure SimulationState where
  publicV : Rat
  privateV : Rat
  cash : Rat
  total : Rat
deriving DecidableEq, Repr

/-- Modelled from the spec: the external per-month inputs consumed by
the Portfolio Aggregator (spec section 4.4): the public sleeve's value
delta for the month, the private sleeves' aggregate NAV delta, the
capital call due, and the distributions received. -/
structure MonthInput where
  publicDelta : Rat
  navDelta : Rat
  callAmount : Rat
  distribution : Rat
deriving Repr

/-- Modelled from the spec: one month of the Portfolio Aggregator
(spec section 4.4), absent from the repository's source: apply the
public delta, apply the NAV delta, fund the capital call from cash
first and the remainder from the public sleeve, credit distributions
into cash, and record the state with total = public + private + cash. -/
def aggregateStep (prev : SimulationState) (m : MonthInput) : SimulationState :=
  let pub := prev.publicV + m.publicDelta
  let priv := prev.privateV + m.navDelta
  let fromCash := min m.callAmount prev.cash
  let fromPublic := m.callAmount - fromCash
  let pub1 := pub - fromPublic
  let cash1 := prev.cash - fromCash + m.distribution
  { publicV := pub1, privateV := priv, cash := cash1,
    total := pub1 + priv + cash1 }

/-- Modelled from the spec: the month-0 state of a path, the initial
capital held as the public sleeve with no private NAV and no cash, and
total recorded as the sum of the three. -/
def initState (capital : Rat) : SimulationState :=
  { publicV := capital, privateV := 0, cash := 0, total := capital + 0 + 0 }

/-- Modelled from the spec: a `SimulationPath` (spec section 3), the
ordered sequence of recorded monthly states produced by folding the
Aggregator over the months' inputs. -/
def simulatePath (init : SimulationState) (months : List MonthInput) :
    List SimulationState :=
  months.scanl aggregateStep init

/-- Modelled from the spec: a 64-bit linear congruential step, standing
in for the seedable random source the spec requires (section 4.1); any
deterministic generator suffices for the determinism contract. -/
def lcgNext (s : Nat) : Nat :=
  (6364136223846793005 * s + 1442695040888963407) % 2 ^ 64

/-- Modelled from the spec: a stream of `n` draws from the seeded
source, each state derived from the previous one. -/
def lcgStream : Nat → Nat → List Nat
  | _, 0 => []
  | s, n + 1 =>
    let s1 := lcgNext s
    s1 :: lcgStream s1 n

/-- Modelled from the spec: a synthetic monthly return derived from one
draw, a rational in [-0.2, 0.2]. -/
def syntheticReturn (x : Nat) : Rat :=
  (((x % 401 : Nat) : Rat) - 200) / 1000

/-- Modelled from the spec: the engine-side request configuration
(spec section 6) that the Orchestrator consumes. -/
structure OrchestratorRequest where
  initial_capital : Rat
  horizon_months : Nat
  num_paths : Nat
deriving DecidableEq, Repr

/-- Modelled from the spec: one path's total-value trajectory under
synthetic returns drawn from the path-scoped seeded source. -/
def runPath (req : OrchestratorRequest) (subseed : Nat) : List Rat :=
  (lcgStream subseed req.horizon_months).scanl
    (fun v x => v * (1 + syntheticReturn x)) req.initial_capital

/-- Modelled from the spec: a `SimulationResult` (spec section 3), the
collection of per-path trajectories plus a cross-path aggregate. -/
structure SimulationResult where
  paths : List (List Rat)
  terminalSum : Rat
deriving DecidableEq, Repr

/-- Modelled from the spec: the Simulation Orchestrator (spec section
4.6), absent from the repository's source: run `num_paths` independent
paths, each with a distinct deterministic sub-seed derived from the
master seed plus the path index, and reduce commutatively. -/
def runOrchestrator (req : OrchestratorRequest) (seed : Nat) : SimulationResult :=
  let paths := (List.range req.num_paths).map (fun i => runPath req (lcgNext (seed + i)))
  { paths := paths
  , terminalSum := (paths.map (fun p => p.getLastD 0)).sum }

/-- A frontend state whose initial-capital input is the string "-5". -/
def negCapitalState : FrontendState := { defaultState with initialCapital := "-5" }

/-- A frontend state whose weights input is the string "SPY:0.9". -/
def badWeightsState : FrontendState :=
  { defaultState with publicWeightsInput := "SPY:0.9" }

/-- A frontend state whose investments list came from one Add with the
inputs "-100" and "-3". -/
def negInvestmentsState : FrontendState :=
  { defaultState with privateInvestments := applyOps [InvOp.add "-100" "-3"] }

lemma rowComplete_eq (r : Row) :
    rowComplete r = decide (∀ kv ∈ r, kv.2 ≠ Cell.null ∧ kv.2 ≠ Cell.str "") := by
  rw [Bool.eq_iff_iff]
  simp [rowComplete, List.all_map]
  exact ⟨fun h a b hab => h b a hab, fun h b a hab => h a b hab⟩

lemma stripDate_eq (r : Row) :
    stripDate r = r.filter (fun kv => decide (kv.1 ≠ "Date")) := by
  unfold stripDate
  refine List.filter_congr ?_
  intro kv _
  rw [Bool.eq_iff_iff]
  simp [bne]

lemma fwi_gt {α : Type} (l : List α) : ∀ (n idx : Nat), idx < n →
    filterWithIndex (fun i _ => i != idx) n l = l := by
  induction l with
  | nil => intro n idx _; simp [filterWithIndex]
  | cons a t ih =>
    intro n idx h
    have hne : (n != idx) = true := by simp; omega
    simp [filterWithIndex, hne, ih (n + 1) idx (by omega)]

lemma fwi_remove {α : Type} (l : List α) : ∀ (n idx : Nat), n ≤ idx →
    filterWithIndex (fun i _ => i != idx) n l =
      l.take (idx - n) ++ l.drop (idx - n + 1) := by
  induction l with
  | nil => intro n idx _; simp [filterWithIndex]
  | cons a t ih =>
    intro n idx h
    by_cases hn : n = idx
    · subst hn
      have h0 : (n != n) = false := by simp
      simp [filterWithIndex, h0, fwi_gt t (n + 1) n (by omega)]
    · have hne : (n != idx) = true := by simp; omega
      have h1 : idx - n = (idx - (n + 1)) + 1 := by omega
      simp [filterWithIndex, hne, ih (n + 1) idx (by omega), h1]

lemma mem_filterWithIndex {α : Type} (p : Nat → α → Bool) (a : α) :
    ∀ (l : List α) (n : Nat), a ∈ filterWithIndex p n l → a ∈ l
  | [], n, h => by simp [filterWithIndex] at h
  | b :: t, n, h => by
    unfold filterWithIndex at h
    split at h
    · rcases List.mem_cons.mp h with h1 | h1
      · exact h1 ▸ List.mem_cons_self _ _
      · exact List.mem_cons_of_mem _ (mem_filterWithIndex p a t (n + 1) h1)
    · exact List.mem_cons_of_mem _ (mem_filterWithIndex p a t (n + 1) h)

lemma mem_applyOps (inv : Investment) :
    ∀ (ops : List InvOp) (l : List Investment),
      inv ∈ ops.foldl applyOp l →
      inv ∈ l ∨ ∃ c s, c ≠ "" ∧ s ≠ "" ∧
        inv = { commitment := parseFloat c, start_month := parseInt s }
  | [], l, h => Or.inl h
  | op :: rest, l, h => by
    rw [List.foldl_cons] at h
    rcases mem_applyOps inv rest (applyOp l op) h with h1 | h1
    · cases op with
      | add c s =>
        have he : applyOp l (InvOp.add c s) = addInvestment l c s := rfl
        rw [he] at h1
        by_cases hg : c ≠ "" ∧ s ≠ ""
        · rw [addInvestment, if_pos hg] at h1
          rcases List.mem_append.mp h1 with h2 | h2
          · exact Or.inl h2
          · refine Or.inr ⟨c, s, hg.1, hg.2, ?_⟩
            simpa using h2
        · rw [addInvestment, if_neg hg] at h1
          exact Or.inl h1
      | remove i =>
        have he : applyOp l (InvOp.remove i) =
            filterWithIndex (fun j _ => j != i) 0 l := rfl
        rw [he] at h1
        exact Or.inl (mem_filterWithIndex _ _ l 0 h1)
    · exact Or.inr h1

/-- C1: for every simulation path and every month, the recorded
SimulationState satisfies total = public + private + cash exactly: the
Aggregator records total as the exact sum of the three sleeves, so the
invariant propagates from the initial state through every month with no
silent leakage (spec-modelled: the engine is absent from the repository
source). -/
theorem total_eq_sum_invariant (init : SimulationState) (months : List MonthInput)
    (h : init.total = init.publicV + init.privateV + init.cash) :
    ∀ s ∈ simulatePath init months, s.total = s.publicV + s.privateV + s.cash := by
  induction months generalizing init with
  | nil =>
    intro s hs
    simp [simulatePath] at hs
    subst hs
    exact h
  | cons m rest ih =>
    intro s hs
    simp only [simulatePath, List.scanl_cons, List.singleton_append,
      List.mem_cons] at hs
    obtain h1 | h2 := hs
    · subst h1; exact h
    · exact ih (aggregateStep init m) rfl s h2

/-- Witness for C1: the invariant holds on a concrete one-month path
started from an initial capital of 100. -/
theorem total_eq_sum_invariant_witness :
    (initState 100).total =
      (initState 100).publicV + (initState 100).privateV + (initState 100).cash ∧
    ∀ s ∈ simulatePath (initState 100)
        [{ publicDelta := 1, navDelta := 2, callAmount := 3, distribution := 4 }],
      s.total = s.publicV + s.privateV + s.cash :=
  ⟨rfl, total_eq_sum_invariant _ _ rfl⟩

/-- C2 (amended): every request built by handleSimulation has exactly
the four fields initial_capital, public_weights, private_commitments
and returns_data, in that order; in particular horizon_months,
num_paths and rebalancing_policy are never sent. -/
theorem request_fields_exactly_four (st : FrontendState) :
    (buildRequest st).map Prod.fst =
      ["initial_capital", "public_weights", "private_commitments", "returns_data"] :=
  rfl

/-- C2 counterexample: the request built from the initial frontend
state contains no horizon_months, num_paths or rebalancing_policy
field, refuting the claim that every simulation request contains
them. -/
theorem request_missing_engine_fields :
    "horizon_months" ∉ (buildRequest defaultState).map Prod.fst ∧
    "num_paths" ∉ (buildRequest defaultState).map Prod.fst ∧
    "rebalancing_policy" ∉ (buildRequest defaultState).map Prod.fst := by
  decide

/-- C3 counterexample: with no CSV uploaded (returnsData null), the
request still carries a returns_data field, bound to the hard-coded
default object, refuting the claim that the field is absent in that
case. -/
theorem returns_data_present_without_csv :
    defaultState.returnsData = none ∧
    ("returns_data", defaultReturnsValue) ∈ buildRequest defaultState :=
  ⟨rfl, List.Mem.tail _ (List.Mem.tail _ (List.Mem.tail _ (List.Mem.head _)))⟩

/-- C3 (amended): the returns_data field is always present: it is the
array of cleaned per-month row objects when a CSV was uploaded, and the
hard-coded default mapping {SPY: 120 x 0.01, TLT: 120 x 0.005} when
none was. -/
theorem returns_data_shape (st : FrontendState) :
    ("returns_data", returnsDataValue st.returnsData) ∈ buildRequest st ∧
    returnsDataValue none = defaultReturnsValue ∧
    ∀ rows, returnsDataValue (some rows) = JValue.jarr (rows.map rowObj) :=
  ⟨List.Mem.tail _ (List.Mem.tail _ (List.Mem.tail _ (List.Mem.head _))), rfl,
   fun _ => rfl⟩

/-- C4 counterexample: from the weights input "SPY:0.9" the parsed
mapping is {SPY: 0.9}, whose values sum to 0.9 — further than 1e-6 from
1.0 — and the request carrying it is still built and sent: no rejection
happens. -/
theorem weights_not_validated_cex :
    parseWeights "SPY:0.9" = [("SPY", some (9 / 10))] ∧
    (1 : Rat) - 9 / 10 > 1 / 1000000 ∧
    ("public_weights", weightsObj (parseWeights badWeightsState.publicWeightsInput)) ∈
      buildRequest badWeightsState := by
  refine ⟨?_, by norm_num, List.Mem.tail _ (List.Mem.head _)⟩
  rw [show parseWeights "SPY:0.9" = [("SPY", parseFloatChars ['0', '.', '9'])] from rfl]
  rw [show parseFloatChars ['0', '.', '9'] =
        some (floatPartsToRat (false, 0, 9, 1)) from rfl]
  norm_num [floatPartsToRat]

/-- C4 (amended): the public_weights field of every request is exactly
the mapping parsed from the weights input by splitting on commas and
colons and applying parseFloat; no non-negativity or sum-to-1 check is
performed, and no weight mapping is ever rejected. -/
theorem weights_sent_unvalidated (st : FrontendState) :
    ("public_weights", weightsObj (parseWeights st.publicWeightsInput)) ∈
      buildRequest st :=
  List.Mem.tail _ (List.Mem.head _)

/-- C5: two runs of the Orchestrator with identical request
configuration and identical seed produce identical SimulationResult,
including every numeric path sequence (spec-modelled: the engine is
absent from the repository source; the model is a pure function of
request and seed, so determinism holds by construction). -/
theorem orchestrator_deterministic (req1 req2 : OrchestratorRequest)
    (seed1 seed2 : Nat) (hreq : req1 = req2) (hseed : seed1 = seed2) :
    runOrchestrator req1 seed1 = runOrchestrator req2 seed2 ∧
    (runOrchestrator req1 seed1).paths = (runOrchestrator req2 seed2).paths := by
  subst hreq
  subst hseed
  exact ⟨rfl, rfl⟩

/-- Witness for C5: two runs with the same concrete request and seed 42
agree. -/
theorem orchestrator_deterministic_witness :
    ({ initial_capital := 1000, horizon_months := 3, num_paths := 2 } :
        OrchestratorRequest) =
      { initial_capital := 1000, horizon_months := 3, num_paths := 2 } ∧
    (42 : Nat) = 42 ∧
    (runOrchestrator { initial_capital := 1000, horizon_months := 3, num_paths := 2 } 42 =
       runOrchestrator { initial_capital := 1000, horizon_months := 3, num_paths := 2 } 42 ∧
     (runOrchestrator { initial_capital := 1000, horizon_months := 3, num_paths := 2 } 42).paths =
       (runOrchestrator { initial_capital := 1000, horizon_months := 3, num_paths := 2 } 42).paths) :=
  ⟨rfl, rfl, orchestrator_deterministic _ _ _ _ rfl rfl⟩

/-- C6 counterexample: the Add handler accepts the inputs "-100" and
"-3" (both strings are non-empty, which is all the guard checks), so a
subsequent request carries an entry with commitment -100, not > 0, and
start month -3, not >= 0. -/
theorem add_accepts_nonpositive_entry :
    applyOps [InvOp.add "-100" "-3"] =
      [{ commitment := some (-100), start_month := some (-3) }] ∧
    ¬ ((0 : Rat) < -100) ∧ ¬ ((0 : Int) ≤ -3) ∧
    ("private_commitments",
      JValue.jarr ((applyOps [InvOp.add "-100" "-3"]).map investmentObj)) ∈
      buildRequest negInvestmentsState := by
  refine ⟨?_, by norm_num, by norm_num,
    List.Mem.tail _ (List.Mem.tail _ (List.Mem.head _))⟩
  rw [show applyOps [InvOp.add "-100" "-3"] =
        [{ commitment := parseFloat "-100", start_month := parseInt "-3" }] from rfl]
  rw [show parseFloat "-100" = some (floatPartsToRat (true, 100, 0, 0)) from rfl]
  rw [show parseInt "-3" = some (-3) from rfl]
  norm_num [floatPartsToRat]

/-- C6 (amended): after any sequence of Add and Remove operations,
every entry of the investments list was created by an Add whose two
input strings were non-empty, with commitment = parseFloat and
start_month = parseInt of those strings; the parsed values themselves
are unchecked, so non-positive commitments and negative start months
can occur. -/
theorem investment_entries_from_nonempty_inputs (ops : List InvOp) (inv : Investment)
    (h : inv ∈ applyOps ops) :
    ∃ c s, c ≠ "" ∧ s ≠ "" ∧
      inv = { commitment := parseFloat c, start_month := parseInt s } := by
  rcases mem_applyOps inv ops [] h with h1 | h1
  · simp at h1
  · exact h1

/-- Witness for C6 (amended): the entry produced by Add with inputs "5"
and "2" has the stated shape. -/
theorem investment_entries_witness :
    ({ commitment := parseFloat "5", start_month := parseInt "2" } : Investment) ∈
      applyOps [InvOp.add "5" "2"] ∧
    ∃ c s, c ≠ "" ∧ s ≠ "" ∧
      ({ commitment := parseFloat "5", start_month := parseInt "2" } : Investment) =
        { commitment := parseFloat c, start_month := parseInt s } :=
  ⟨List.Mem.head _,
   investment_entries_from_nonempty_inputs [InvOp.add "5" "2"] _ (List.Mem.head _)⟩

/-- C7 counterexample: with "-5" in the initial-capital input, the
request's initial_capital field is -5, which is not strictly positive;
and parseFloat of the empty input is NaN, so the field need not even be
a number.  No positivity check exists on this path. -/
theorem initial_capital_nonpositive_cex :
    (buildRequest negCapitalState).head? =
      some ("initial_capital", JValue.jnum (some (-5))) ∧
    ¬ ((0 : Rat) < -5) ∧ parseFloat "" = none := by
  refine ⟨?_, by norm_num, rfl⟩
  rw [show (buildRequest negCapitalState).head? =
        some ("initial_capital", JValue.jnum (parseFloat "-5")) from rfl]
  rw [show parseFloat "-5" = some (floatPartsToRat (true, 5, 0, 0)) from rfl]
  norm_num [floatPartsToRat]

/-- C7 (amended): the initial_capital field of every request is exactly
parseFloat of the capital input string, sent unvalidated: it can be
non-positive or NaN. -/
theorem initial_capital_is_parseFloat (st : FrontendState) :
    ("initial_capital", JValue.jnum (parseFloat st.initialCapital)) ∈
      buildRequest st :=
  List.Mem.head _

/-- C8: when the simulate request fails, handleSimulation leaves result
at null (set before the try block and never reassigned on the error
path), resets loading to false, and consequently the portfolio chart
and metrics are not rendered. -/
theorem failure_leaves_no_result :
    (handleSimulationUpdate BackendOutcome.failure).result = none ∧
    (handleSimulationUpdate BackendOutcome.failure).loading = false ∧
    rendersResult (handleSimulationUpdate BackendOutcome.failure) = false :=
  ⟨rfl, rfl, rfl⟩

/-- C9: Add (with non-empty inputs) appends the new entry at the end of
the investments list; Remove at index i deletes exactly the entry at
index i, preserving the relative order of the rest; and the request's
private_commitments field is that list, in order. -/
theorem private_commitments_list_ops (l : List Investment) (c s : String)
    (idx : Nat) (st : FrontendState) (hc : c ≠ "") (hs : s ≠ "")
    (hidx : idx < l.length) :
    addInvestment l c s =
      l ++ [{ commitment := parseFloat c, start_month := parseInt s }] ∧
    removeInvestment l idx = l.take idx ++ l.drop (idx + 1) ∧
    ("private_commitments", JValue.jarr (st.privateInvestments.map investmentObj)) ∈
      buildRequest st := by
  refine ⟨?_, ?_, List.Mem.tail _ (List.Mem.tail _ (List.Mem.head _))⟩
  · simp [addInvestment, hc, hs]
  · have h := fwi_remove l 0 idx (Nat.zero_le _)
    simpa [removeInvestment] using h

/-- Witness for C9: Add and Remove behave as stated on a concrete
two-entry list. -/
theorem private_commitments_list_ops_witness :
    ("5" : String) ≠ "" ∧ ("2" : String) ≠ "" ∧
    0 < ([{ commitment := some 1, start_month := some 0 },
          { commitment := some 2, start_month := some 1 }] : List Investment).length ∧
    (addInvestment [{ commitment := some 1, start_month := some 0 },
                    { commitment := some 2, start_month := some 1 }] "5" "2" =
       [{ commitment := some 1, start_month := some 0 },
        { commitment := some 2, start_month := some 1 }] ++
         [{ commitment := parseFloat "5", start_month := parseInt "2" }] ∧
     removeInvestment [{ commitment := some 1, start_month := some 0 },
                       { commitment := some 2, start_month := some 1 }] 0 =
       ([{ commitment := some 1, start_month := some 0 },
         { commitment := some 2, start_month := some 1 }] : List Investment).take 0 ++
         ([{ commitment := some 1, start_month := some 0 },
           { commitment := some 2, start_month := some 1 }] : List Investment).drop 1 ∧
     ("private_commitments",
       JValue.jarr (defaultState.privateInvestments.map investmentObj)) ∈
       buildRequest defaultState) :=
  ⟨by decide, by decide, by decide,
   private_commitments_list_ops _ "5" "2" 0 defaultState (by decide) (by decide)
     (by decide)⟩

/-- C10: handleCSVUpload sets returnsData to exactly the parsed rows in
which every column value is neither null nor the empty string, in
original file order, with the Date column removed from each retained
row. -/
theorem csv_rows_cleaned (st : FrontendState) (rows : List Row) :
    (handleCSVUpload st rows).returnsData =
      some ((rows.filter
              (fun r => decide (∀ kv ∈ r, kv.2 ≠ Cell.null ∧ kv.2 ≠ Cell.str ""))).map
            (fun r => r.filter (fun kv => decide (kv.1 ≠ "Date")))) := by
  have h1 : rowComplete =
      fun r : Row => decide (∀ kv ∈ r, kv.2 ≠ Cell.null ∧ kv.2 ≠ Cell.str "") :=
    funext rowComplete_eq
  have h2 : stripDate = fun r : Row => r.filter (fun kv => decide (kv.1 ≠ "Date")) :=
    funext stripDate_eq
  simp [handleCSVUpload, processCSV, h1, h2]
